import Mathlib

/-!
Verification development for the caipi repository: a shallow embedding of
the dynamic schema / invocation engine (src/models.py, src/app.py,
src/llm.py, src/api/ai.py) together with theorems settling the frozen
claims about its specification.

Modelling conventions:
* Python values appearing in payloads are modelled by the inductive `Val`
  (JSON-like values); Python floats are modelled as exact rationals.
* pydantic models built by `payload_model` are modelled as their ordered
  field lists; pydantic validation with `extra="forbid"` is modelled by
  `validate` below (lax-mode coercion, unknown keys rejected, absent keys
  bound to the stored default).
* Store reads (Users.get, Projects.get, Endpoints.get) are passed to the
  embedded `invoke` as parameters holding the store answers; store writes
  are recorded in the returned `InvokeOutcome`.
* An uncaught Python exception is modelled by `status = Option.none` in the
  outcome (FastAPI turns it into a 500 without running any further line of
  the handler).
-/

/-- JSON-like runtime values (Python values that can appear in a decoded
payload or a pydantic record). Python floats are modelled as rationals. -/
inductive Val where
  | none
  | str (s : String)
  | int (n : Int)
  | float (q : Rat)
  | bool (b : Bool)
  | list (vs : List Val)
  | obj (kvs : List (String × Val))

/-- The concrete Python types a field can be compiled to (the values of the
`l2p` mapping in src/models.py). -/
inductive PyType where
  | str
  | int
  | float
  | bool
  | list
deriving DecidableEq, Repr

/-- src/models.py `l2p`: label-to-python-type registry. Unknown tags are
absent (a Python `KeyError` on lookup). -/
def l2p : String → Option PyType
  | "Text" => some PyType.str
  | "Number" => some PyType.float
  | "Boolean" => some PyType.bool
  | "str" => some PyType.str
  | "int" => some PyType.int
  | "float" => some PyType.float
  | "bool" => some PyType.bool
  | "list" => some PyType.list
  | _ => Option.none

/-- One compiled pydantic field: name, python type, and the default value
passed to `create_model` (src/models.py line 27 always passes the stored
second tuple component, so every compiled field carries a default). -/
structure CompiledField where
  name : String
  type : PyType
  default : Val

/-- A contract as stored on a `Projects` document (`dict[str, list]` whose
values are `[dtype, default]` pairs): ordered (name, tag, default) rows. -/
def ContractData : Type := List (String × String × Val)

/-- src/models.py `payload_model`: maps each declared field through `l2p`
and builds the pydantic model (modelled as its ordered field list). A
`KeyError` on an unknown tag is modelled by `Option.none`. -/
def payload_model (data : ContractData) : Option (List CompiledField) :=
  data.mapM fun kv => (l2p kv.2.1).map fun ty => ⟨kv.1, ty, kv.2.2⟩

/-- Errors raised by pydantic validation, as relevant here: an undeclared
key under `extra="forbid"`, a required field absent (pydantic error type
"missing"), or a value that lax-mode coercion rejects. -/
inductive ValErr where
  | extraForbidden (key : String)
  | missing (key : String)
  | typeError (key : String)
deriving DecidableEq, Repr

/-- Lax-mode (default) pydantic v2 coercion into a target python type.
Returns the coerced value, or `Option.none` on a validation error. -/
def coerce : PyType → Val → Option Val
  | PyType.str, Val.str s => some (Val.str s)
  | PyType.str, _ => Option.none
  | PyType.float, Val.float q => some (Val.float q)
  | PyType.float, Val.int n => some (Val.float (n : Rat))
  | PyType.float, Val.str s =>
      ((s.toInt?).map fun n => Val.float (n : Rat))
  | PyType.float, _ => Option.none
  | PyType.int, Val.int n => some (Val.int n)
  | PyType.int, Val.float q => if q.den = 1 then some (Val.int q.num) else Option.none
  | PyType.int, Val.str s => (s.toInt?).map Val.int
  | PyType.int, _ => Option.none
  | PyType.bool, Val.bool b => some (Val.bool b)
  | PyType.bool, Val.int n =>
      if n = 0 then some (Val.bool false)
      else if n = 1 then some (Val.bool true) else Option.none
  | PyType.bool, Val.str s =>
      if s = "true" ∨ s = "True" ∨ s = "1" ∨ s = "yes" ∨ s = "on" then some (Val.bool true)
      else if s = "false" ∨ s = "False" ∨ s = "0" ∨ s = "no" ∨ s = "off" then some (Val.bool false)
      else Option.none
  | PyType.bool, _ => Option.none
  | PyType.list, Val.list vs => some (Val.list vs)
  | PyType.list, _ => Option.none

/-- First value bound to `k` in an association list (a Python dict has
unique keys, so the first binding is the binding). -/
def lookupVal (k : String) : List (String × Val) → Option Val
  | [] => Option.none
  | (k2, v) :: rest => if k2 = k then some v else lookupVal k rest

/-- Validation of the declared fields of a compiled model against a
payload: a present key is coerced, an absent key is bound to the field
default (pydantic never raises "missing" for a field that has a default,
and src/models.py always supplies one). -/
def validateFields : List CompiledField → List (String × Val) → Except ValErr (List (String × Val))
  | [], _ => Except.ok []
  | f :: rest, payload =>
      match lookupVal f.name payload with
      | some v =>
          match coerce f.type v with
          | some v2 => (validateFields rest payload).map fun r => (f.name, v2) :: r
          | Option.none => Except.error (ValErr.typeError f.name)
      | Option.none => (validateFields rest payload).map fun r => (f.name, f.default) :: r

/-- Whether `k` is a declared field name of the compiled model. -/
def declaredName (fields : List CompiledField) (k : String) : Bool :=
  fields.any fun f => f.name = k

/-- pydantic validation of `Model(**payload)` for a model compiled by
`payload_model` (config `extra="forbid"`): any undeclared key fails with
`extra_forbidden`; otherwise the declared fields are validated in
declaration order. -/
def validate (fields : List CompiledField) (payload : List (String × Val)) :
    Except ValErr (List (String × Val)) :=
  match payload.find? (fun kv => !(declaredName fields kv.1)) with
  | some kv => Except.error (ValErr.extraForbidden kv.1)
  | Option.none => validateFields fields payload

example : payload_model [("input", "Text", Val.none)] =
    some [⟨"input", PyType.str, Val.none⟩] := rfl

example : validate [⟨"input", PyType.str, Val.none⟩] [("input", Val.str "Helo wrld")] =
    Except.ok [("input", Val.str "Helo wrld")] := rfl

example : validate [⟨"input", PyType.str, Val.none⟩]
    [("input", Val.str "x"), ("extra", Val.int 1)] =
    Except.error (ValErr.extraForbidden "extra") := rfl

example : validate [⟨"input", PyType.str, Val.none⟩] [] =
    Except.ok [("input", Val.none)] := rfl

/-- A hexadecimal digit character (lower case), for JSON control-character
escapes. -/
def hexDigitChar (n : Nat) : Char :=
  if n < 10 then Char.ofNat (48 + n) else Char.ofNat (87 + n)

/-- Four-digit hexadecimal rendering of a code point below 0x10000. -/
def hex4 (n : Nat) : String :=
  String.mk [hexDigitChar ((n / 4096) % 16), hexDigitChar ((n / 256) % 16),
    hexDigitChar ((n / 16) % 16), hexDigitChar (n % 16)]

/-- JSON escaping of a single character (quote, backslash and control
characters escaped; everything else, non-ASCII included, kept literal, as
pydantic v2 serialization does). -/
def escapeJsonChar (c : Char) : String :=
  if c = '"' then "\\\""
  else if c = '\\' then "\\\\"
  else if c = '\n' then "\\n"
  else if c = '\t' then "\\t"
  else if c = '\r' then "\\r"
  else if c.toNat = 8 then "\\b"
  else if c.toNat = 12 then "\\f"
  else if c.toNat < 32 then "\\u" ++ hex4 c.toNat
  else String.singleton c

/-- JSON escaping of a string body. -/
def escapeJson (s : String) : String :=
  String.join (s.data.map escapeJsonChar)

/-- Rendering of a (rational-modelled) Python float in JSON. Integral
values print with a trailing .0 as Python does; no claim depends on the
rendering of non-integral floats. -/
def ratDumpJson (q : Rat) : String :=
  if q.den = 1 then toString q.num ++ ".0" else toString q

mutual

/-- Compact JSON serialization of a value, as pydantic v2
`model_dump_json` and starlette `JSONResponse` produce it: separators
without spaces, non-ASCII characters kept literal. -/
def Val.dumpJson : Val → String
  | Val.none => "null"
  | Val.str s => "\"" ++ escapeJson s ++ "\""
  | Val.int n => toString n
  | Val.float q => ratDumpJson q
  | Val.bool b => if b then "true" else "false"
  | Val.list vs => "[" ++ dumpJsonList vs ++ "]"
  | Val.obj kvs => "\x7b" ++ dumpJsonObj kvs ++ "\x7d"

/-- Comma-separated serialization of the elements of a JSON array. -/
def dumpJsonList : List Val → String
  | [] => ""
  | [v] => Val.dumpJson v
  | v :: rest => Val.dumpJson v ++ "," ++ dumpJsonList rest

/-- Comma-separated serialization of the entries of a JSON object. -/
def dumpJsonObj : List (String × Val) → String
  | [] => ""
  | [kv] => "\"" ++ escapeJson kv.1 ++ "\":" ++ Val.dumpJson kv.2
  | kv :: rest =>
      "\"" ++ escapeJson kv.1 ++ "\":" ++ Val.dumpJson kv.2 ++ "," ++ dumpJsonObj rest

end

/-- Compact JSON serialization of a pydantic record (ordered field map),
as `model_dump_json` produces it. -/
def recordDumpJson (r : List (String × Val)) : String :=
  Val.dumpJson (Val.obj r)

example : recordDumpJson [] = "\x7b\x7d" := rfl

example : recordDumpJson [("input", Val.str "Helo wrld"), ("n", Val.int 3)] =
    "\x7b\"input\":\"Helo wrld\",\"n\":3\x7d" := rfl

/-- src/models.py `Users` (a cosmos `Document`): account entity with
pre-paid credits and rolling aggregates. Field defaults are the class
defaults. -/
structure Users where
  id : String
  login : String
  provider : String
  roles : List String
  email : Option String := Option.none
  username : Option String := Option.none
  invocations : Int := 0
  credits_avail : Int := 1000
  credits_used : Int := 0
  latency : Rat := 0
  success : Rat := 1
deriving DecidableEq, Repr

/-- The Azure client principal dictionary consumed by
`Users.from_client_principal`. -/
structure ClientPrincipal where
  identityProvider : String
  userId : String
  userDetails : String
  userRoles : List String
deriving DecidableEq, Repr

/-- src/models.py `Users.from_client_principal`: builds a fresh user for a
github principal (every other provider raises `NotImplementedError`,
modelled by `Option.none`). All aggregate and credit fields take their
class defaults. -/
def Users.from_client_principal (cp : ClientPrincipal) : Option Users :=
  if cp.identityProvider = "github" then
    some { id := cp.userId, login := cp.userDetails,
           provider := cp.identityProvider, roles := cp.userRoles,
           username := some cp.userDetails }
  else
    Option.none

/-- src/models.py `Invocations`: immutable usage fact record. The random
document id and the store-assigned timestamp are omitted (no claim
mentions them). -/
structure Invocations where
  project : String
  user : String
  credits : Int
  latency : Rat
  success : Bool
  model : Option String := Option.none
  request : Option (List (String × Val)) := Option.none
  response : Option (List (String × Val)) := Option.none

/-- src/models.py `Users.refresh`: staleness short-circuit on the stored
invocation count, otherwise a full recomputation of the rollups. The
returned boolean records whether `self.save()` ran (a store write).
Latency and success are recomputed only when the new count is positive. -/
def Users.refresh (u : Users) (invocations : List Invocations) : Users × Bool :=
  if (invocations.length : Int) = u.invocations then (u, false)
  else
    let u1 := { u with credits_used := (invocations.map (fun x => x.credits)).sum,
                       invocations := (invocations.length : Int) }
    let u2 :=
      if u1.invocations > 0 then
        { u1 with
            latency := (invocations.map (fun x => x.latency)).sum / (invocations.length : Rat),
            success := ((invocations.filter (fun x => x.success)).length : Rat) /
              (invocations.length : Rat) }
      else u1
    (u2, true)

/-- src/models.py `Projects` (a cosmos `Document`): a project owns a
request and a response contract (stored as ordered (name, tag, default)
rows), instructions, a model identifier and rolling aggregates. The
random `endpoint` key is a parameter. Field defaults are the class
defaults. -/
structure Projects where
  id : String
  user : Option String := Option.none
  name : String
  instructions : String
  request : ContractData
  response : ContractData
  endpoint : String
  model : String := "gpt-35-turbo"
  temperature : Rat := 0
  collect_payload : Bool := false
  ai_validation : Bool := false
  invocations : Int := 0
  credits : Int := 0
  latency : Rat := 0
  success : Rat := 1
  active : Bool := true

/-- src/models.py `Projects.refresh`: filters the given invocations down
to this project, short-circuits on the stored count, otherwise recomputes
the rollups. The boolean records whether `self.save()` ran. -/
def Projects.refresh (p : Projects) (invocations : List Invocations) : Projects × Bool :=
  let invs := invocations.filter fun inv => inv.project = p.id
  if (invs.length : Int) = p.invocations then (p, false)
  else
    let p1 := { p with invocations := (invs.length : Int),
                       credits := (invs.map (fun x => x.credits)).sum }
    let p2 :=
      if (0 : Int) < p1.invocations then
        { p1 with
            latency := (invs.map (fun x => x.latency)).sum / (invs.length : Rat),
            success := ((invs.filter (fun x => x.success)).length : Rat) / (invs.length : Rat) }
      else p1
    (p2, true)

/-- src/models.py `Projects.from_form`, contract part: zips the parallel
name/dtype arrays, drops rows whose name is empty, and stores `None` as
the default of every kept row (the form has no default-value input). -/
def contract_from_form (names dtypes : List String) : ContractData :=
  (names.zip dtypes).filterMap fun nd =>
    if nd.1 = "" then Option.none else some (nd.1, nd.2, Val.none)

/-- src/models.py `Projects.from_form`: builds a project from the
submitted form for a given user. The generated document id and endpoint
key are parameters (they come from a random generator). -/
def Projects.from_form (name instructions : String)
    (req_names req_dtypes res_names res_dtypes : List String)
    (user : Users) (id endpoint : String) : Projects :=
  { id := id, user := some user.id, name := name, instructions := instructions,
    request := contract_from_form req_names req_dtypes,
    response := contract_from_form res_names res_dtypes,
    endpoint := endpoint }

/-- src/models.py `Endpoints`: the public handle of a project. -/
structure Endpoints where
  id : String
  project : String
  user : String
  key : Option String := Option.none
deriving DecidableEq, Repr

/-- src/api/ai.py `model2credits`: characters per credit, per model.
Python raises `KeyError` for an unknown model, modelled by `Option.none`. -/
def model2credits : String → Option Nat
  | "gpt-35-turbo" => some 500
  | "gpt-4" => some 50
  | _ => Option.none

/-- Ceiling division on naturals, the exact value of Python
`math.ceil(a / b)` for non-negative `a` and positive `b` (float rounding
of the intermediate quotient is below the granularity of this model). -/
def ceilDiv (a b : Nat) : Nat := (a + b - 1) / b

/-- src/app.py lines 216-221: the metered character count is the CHARACTER
length (Python `len` of a `str`) of the serialized response, plus that of
the serialized request, plus that of the instructions; credits are the
rounded-up quotient by the per-model rate. -/
def meter (request response : List (String × Val)) (instructions : String)
    (rate : Nat) : Nat :=
  ceilDiv ((recordDumpJson response).length + (recordDumpJson request).length
    + instructions.length) rate

/-- Modelled from the spec (§4.4 wording, for comparison only): the same
cost formula with BYTE lengths of the canonical JSON and of the
instructions in place of character counts. -/
def meterBytesSpec (request response : List (String × Val)) (instructions : String)
    (rate : Nat) : Nat :=
  ceilDiv ((recordDumpJson response).utf8ByteSize + (recordDumpJson request).utf8ByteSize
    + instructions.utf8ByteSize) rate

/-- ASCII-only JSON escaping of a single character, as Python
`json.dumps` with its default `ensure_ascii=True` produces: non-ASCII
code points become `\uXXXX` escapes (surrogate pairs above 0xFFFF). -/
def escapeJsonCharAscii (c : Char) : String :=
  if c = '"' then "\\\""
  else if c = '\\' then "\\\\"
  else if c = '\n' then "\\n"
  else if c = '\t' then "\\t"
  else if c = '\r' then "\\r"
  else if c.toNat = 8 then "\\b"
  else if c.toNat = 12 then "\\f"
  else if c.toNat < 32 then "\\u" ++ hex4 c.toNat
  else if c.toNat < 127 then String.singleton c
  else if c.toNat < 65536 then "\\u" ++ hex4 c.toNat
  else
    "\\u" ++ hex4 (55296 + (c.toNat - 65536) / 1024)
      ++ "\\u" ++ hex4 (56320 + (c.toNat - 65536) % 1024)

/-- ASCII-only JSON escaping of a string body. -/
def escapeJsonAscii (s : String) : String :=
  String.join (s.data.map escapeJsonCharAscii)

mutual

/-- Python `json.dumps` with default options (spaced separators,
`ensure_ascii=True`), used by src/llm.py line 64 to re-serialize the
validated request record. -/
def Val.pyDumps : Val → String
  | Val.none => "null"
  | Val.str s => "\"" ++ escapeJsonAscii s ++ "\""
  | Val.int n => toString n
  | Val.float q => ratDumpJson q
  | Val.bool b => if b then "true" else "false"
  | Val.list vs => "[" ++ pyDumpsList vs ++ "]"
  | Val.obj kvs => "\x7b" ++ pyDumpsObj kvs ++ "\x7d"

/-- Elements of a JSON array under Python default separators. -/
def pyDumpsList : List Val → String
  | [] => ""
  | [v] => Val.pyDumps v
  | v :: rest => Val.pyDumps v ++ ", " ++ pyDumpsList rest

/-- Entries of a JSON object under Python default separators. -/
def pyDumpsObj : List (String × Val) → String
  | [] => ""
  | [kv] => "\"" ++ escapeJsonAscii kv.1 ++ "\": " ++ Val.pyDumps kv.2
  | kv :: rest =>
      "\"" ++ escapeJsonAscii kv.1 ++ "\": " ++ Val.pyDumps kv.2 ++ ", " ++ pyDumpsObj rest

end

/-- src/llm.py `Message`. -/
structure Message where
  role : String
  content : String
deriving DecidableEq, Repr

/-- src/llm.py `ToolFunctionParameters`: the parameter schema the tool
advertises. `properties` holds whatever JSON value the caller passes
(src/llm.py line 55 passes the entire `model_json_schema()` output). -/
structure ToolFunctionParameters where
  type : String := "object"
  properties : Val
  required : List String

/-- src/llm.py `ToolFunction`. -/
structure ToolFunction where
  name : String := "structured_response"
  description : String := "Saves the response in a structured format."
  parameters : ToolFunctionParameters

/-- src/llm.py `Tool`. -/
structure Tool where
  type : String := "function"
  function : ToolFunction

/-- The JSON forms the OpenAI `tool_choice` parameter can take: a plain
string ("auto", "none", "required") or an object naming one function. -/
inductive ToolChoiceV where
  | str (s : String)
  | named (fname : String)
deriving DecidableEq, Repr

/-- Modelled from the spec (OpenAI tool-choice semantics, not in src):
tool use is mandatory exactly when `tool_choice` is the string
"required" or names a specific function; the value "auto" lets the model
reply with a plain message instead of a tool call, and "none" forbids
tool calls. -/
def ToolChoiceV.mandatory : ToolChoiceV → Bool
  | ToolChoiceV.str s => s = "required"
  | ToolChoiceV.named _ => true

/-- src/llm.py `OpenAIRequest` with its declared field defaults. -/
structure OpenAIRequest where
  model : Option String := Option.none
  messages : List Message
  temperature : Option Rat := some 1
  tools : Option (List Tool) := Option.none
  tool_choice : Option ToolChoiceV := some (ToolChoiceV.str "auto")

/-- The JSON-schema type name pydantic assigns to each python type. -/
def pyTypeSchemaName : PyType → String
  | PyType.str => "string"
  | PyType.int => "integer"
  | PyType.float => "number"
  | PyType.bool => "boolean"
  | PyType.list => "array"

/-- pydantic `model_json_schema` for a model built by `payload_model`
(library behavior, modelled): an object schema listing every field as a
property carrying its default, title and JSON type; no field is listed as
required since every compiled field has a default. Property titles are
modelled as the capitalised field name. -/
def model_json_schema (name : String) (fields : List CompiledField) : Val :=
  Val.obj
    [("properties", Val.obj (fields.map fun f =>
        (f.name, Val.obj [("default", f.default),
          ("title", Val.str f.name.capitalize),
          ("type", Val.str (pyTypeSchemaName f.type))]))),
     ("title", Val.str name),
     ("type", Val.str "object")]

/-- src/llm.py `openai_response_tool`: one tool whose `properties` field
holds the whole JSON schema of the response model and whose `required`
list names every response field. Name and description keep their
declared defaults. -/
def openai_response_tool (responseName : String)
    (ResponseFields : List CompiledField) : Tool :=
  { function := { parameters :=
      { type := "object",
        properties := model_json_schema responseName ResponseFields,
        required := ResponseFields.map fun f => f.name } } }

/-- src/llm.py `llm_openai`, request-construction part (lines 64-72,
everything up to the network send): the single user message embeds the
instructions and the re-serialized request in an XML-ish template, and
the request is built with temperature 0 and the single response tool.
`tool_choice` is not passed, so it keeps its declared default "auto". -/
def llm_openai_request (model : String) (instructions : String)
    (request : List (String × Val)) (responseName : String)
    (ResponseFields : List CompiledField) : OpenAIRequest :=
  let req := Val.pyDumps (Val.obj request)
  let prompt := "<instructions>" ++ instructions ++ "</instructions>\n\n<data>"
    ++ req ++ "</data>"
  let messages := [Message.mk "user" prompt]
  { model := some model,
    messages := messages,
    temperature := some 0,
    tools := some [openai_response_tool responseName ResponseFields] }

/-- What one call to the public invoke endpoint persisted and returned.
`status = Option.none` models an uncaught Python exception (FastAPI turns
it into a generic 500 without running any further handler line);
`savedInvocations` and `savedUser` record the store writes; `llmCalled`
records whether the `ai_function` network call was issued. -/
structure InvokeOutcome where
  status : Option Nat
  body : String
  savedInvocations : List Invocations
  savedUser : Option Users
  llmCalled : Bool

/-- src/utils.py `req_to_data` = src/app.py lines 197-206: body decoding
by exact Content-Type match. The parsed JSON body and the parsed form are
parameters (what the framework would yield for this request); form values
decode as strings. Any other Content-Type is rejected. -/
def req_to_data (contentType : String) (jsonData : List (String × Val))
    (formData : List (String × String)) : Except Unit (List (String × Val)) :=
  if contentType = "application/json" then Except.ok jsonData
  else if contentType = "multipart/form-data"
      ∨ contentType = "application/x-www-form-urlencoded" then
    Except.ok (formData.map fun kv => (kv.1, Val.str kv.2))
  else Except.error ()

/-- src/app.py `invoke` (lines 184-235), shallowly embedded.

Parameters: `endpoint` is the store answer for `Endpoints.get(id)`
(`Option.none`: not found, handler returns 404); `user` and `project`
are the store answers for `Users.get(endpoint.user)` and
`Projects.get(endpoint.project, endpoint.user)`; `contentType`,
`jsonData`, `formData` describe the inbound request; `llm` is the outcome
of the awaited LLM call - the structured arguments it returned, or an
error for a raised transport/upstream failure; `latency` is the measured
wall-clock latency (time is not modelled).

The branch points mirror the source line by line: the 404/402 gates, the
Content-Type gate, the try/except around `project.request_model(**data)`
(which catches both the `l2p` KeyError and the pydantic validation
error), the evaluation of `project.response_model` while building the
`ai_function` arguments (an unknown tag raises before the LLM is
contacted), the validation of the LLM reply against the response model
(raises on violation), the `model2credits` lookup (KeyError on an
unknown model), and the `Invocations` construction (pydantic rejects a
`None` user). Every raise after the LLM call leaves the handler with
nothing persisted and nothing debited. -/
def invoke (endpoint : Option Endpoints) (user : Users) (project : Projects)
    (contentType : String) (jsonData : List (String × Val))
    (formData : List (String × String))
    (llm : Except Unit (List (String × Val))) (latency : Rat) : InvokeOutcome :=
  match endpoint with
  | Option.none => ⟨some 404, "Endpoint doesn\x27t exist", [], Option.none, false⟩
  | some _ =>
    if user.credits_used ≥ user.credits_avail then
      ⟨some 402, "Out of Credits", [], Option.none, false⟩
    else
      match req_to_data contentType jsonData formData with
      | Except.error _ => ⟨some 422, "Invalid Content-Type", [], Option.none, false⟩
      | Except.ok data =>
        let requestValidated : Except Unit (List (String × Val)) :=
          match payload_model project.request with
          | Option.none => Except.error ()
          | some m =>
            match validate m data with
            | Except.error _ => Except.error ()
            | Except.ok r => Except.ok r
        match requestValidated with
        | Except.error _ => ⟨some 422, "Payload is invalid", [], Option.none, false⟩
        | Except.ok request =>
          match payload_model project.response with
          | Option.none => ⟨Option.none, "", [], Option.none, false⟩
          | some respModel =>
            match llm with
            | Except.error _ => ⟨Option.none, "", [], Option.none, true⟩
            | Except.ok rawArgs =>
              match validate respModel rawArgs with
              | Except.error _ => ⟨Option.none, "", [], Option.none, true⟩
              | Except.ok response =>
                match model2credits project.model with
                | Option.none => ⟨Option.none, "", [], Option.none, true⟩
                | some rate =>
                  let credits := meter request response project.instructions rate
                  match project.user with
                  | Option.none => ⟨Option.none, "", [], Option.none, true⟩
                  | some puser =>
                    let inv : Invocations :=
                      { project := project.id, user := puser,
                        credits := (credits : Int), latency := latency,
                        success := true, model := some project.model,
                        request := if project.collect_payload then some request
                          else Option.none,
                        response := if project.collect_payload then some response
                          else Option.none }
                    ⟨some 200, recordDumpJson response, [inv],
                      some { user with
                        credits_used := user.credits_used + (credits : Int) }, true⟩

/-- A fresh github user, as `Users.from_client_principal` builds it. -/
def sampleUser : Users :=
  { id := "u1", login := "alice", provider := "github", roles := [],
    username := some "alice" }

/-- A sample endpoint handle. -/
def sampleEndpoint : Endpoints := { id := "e1", project := "p1", user := "u1" }

/-- The spelling-fixer project of the spec scenarios (request contract
`input: Text`, response contract `output: Text, was_corrected: Boolean`,
instructions "fix spelling"). -/
def sampleProject : Projects :=
  { id := "p1", user := some "u1", name := "Spelling",
    instructions := "fix spelling",
    request := [("input", "Text", Val.none)],
    response := [("output", "Text", Val.none), ("was_corrected", "Boolean", Val.none)],
    endpoint := "e1" }

/-- The invoke handler answers 402 only out of its credit gate: a 402
status implies the user had `credits_used >= credits_avail`. -/
theorem invoke_status_402 (ep : Option Endpoints) (user : Users) (project : Projects)
    (ct : String) (j : List (String × Val)) (f : List (String × String))
    (llm : Except Unit (List (String × Val))) (lat : Rat)
    (h : (invoke ep user project ct j f llm lat).status = some 402) :
    user.credits_used ≥ user.credits_avail := by
  by_contra hc
  unfold invoke at h
  cases ep with
  | none => simp at h
  | some e =>
    rw [if_neg hc] at h
    repeat' split at h
    all_goals simp_all

/-- C10: every user built by `Users.from_client_principal` starts with
credits_avail = 1000, credits_used = 0, invocations = 0, latency = 0.0
and success = 1.0, and therefore fails the credit-exhaustion guard
`credits_used >= credits_avail` of the invoke handler, so a freshly
registered account can invoke endpoints immediately (no call of its
returns 402). -/
theorem fresh_user_defaults (cp : ClientPrincipal) (u : Users)
    (h : Users.from_client_principal cp = some u) :
    u.credits_avail = 1000 ∧ u.credits_used = 0 ∧ u.invocations = 0 ∧
    u.latency = 0 ∧ u.success = 1 ∧
    ¬ u.credits_used ≥ u.credits_avail ∧
    (∀ (e : Endpoints) (project : Projects) (ct : String)
      (j : List (String × Val)) (f : List (String × String))
      (llm : Except Unit (List (String × Val))) (lat : Rat),
      (invoke (some e) u project ct j f llm lat).status ≠ some 402) := by
  unfold Users.from_client_principal at h
  split at h
  case isTrue =>
    injection h with h
    subst h
    have hlt : ¬ ((0 : Int) ≥ 1000) := by decide
    refine ⟨rfl, rfl, rfl, rfl, rfl, fun hge => hlt hge, ?_⟩
    intro e project ct j f llm lat h402
    exact hlt (invoke_status_402 (some e) _ project ct j f llm lat h402)
  case isFalse => exact Option.noConfusion h

/-- Witness for C10 at a concrete github client principal. -/
theorem fresh_user_defaults_witness :
    sampleUser.credits_avail = 1000 ∧ sampleUser.credits_used = 0 ∧
    sampleUser.invocations = 0 ∧ sampleUser.latency = 0 ∧ sampleUser.success = 1 ∧
    ¬ sampleUser.credits_used ≥ sampleUser.credits_avail ∧
    (∀ (e : Endpoints) (project : Projects) (ct : String)
      (j : List (String × Val)) (f : List (String × String))
      (llm : Except Unit (List (String × Val))) (lat : Rat),
      (invoke (some e) sampleUser project ct j f llm lat).status ≠ some 402) :=
  fresh_user_defaults ⟨"github", "u1", "alice", []⟩ sampleUser rfl

/-- C6: when a user's credits_used has reached credits_avail (equality
included), any call to one of that user's endpoints returns 402 "Out of
Credits" with no Invocation persisted, no user write, and without the LLM
being contacted. -/
theorem invoke_exhausted_credits (e : Endpoints) (user : Users) (project : Projects)
    (ct : String) (j : List (String × Val)) (f : List (String × String))
    (llm : Except Unit (List (String × Val))) (lat : Rat)
    (h : user.credits_used ≥ user.credits_avail) :
    invoke (some e) user project ct j f llm lat =
      ⟨some 402, "Out of Credits", [], Option.none, false⟩ := by
  unfold invoke
  rw [if_pos h]

/-- Witness for C6: a user whose credits_used exactly equals its
credits_avail gets the 402 outcome. -/
theorem invoke_exhausted_credits_witness :
    ({ sampleUser with credits_used := 1000 } : Users).credits_used ≥
      ({ sampleUser with credits_used := 1000 } : Users).credits_avail ∧
    invoke (some sampleEndpoint) { sampleUser with credits_used := 1000 }
      sampleProject "application/json" [("input", Val.str "x")] []
      (Except.ok [("output", Val.str "x"), ("was_corrected", Val.bool false)]) 0 =
      ⟨some 402, "Out of Credits", [], Option.none, false⟩ :=
  ⟨by decide, invoke_exhausted_credits sampleEndpoint _ sampleProject
    "application/json" [("input", Val.str "x")] []
    (Except.ok [("output", Val.str "x"), ("was_corrected", Val.bool false)]) 0
    (by decide)⟩

/-- C8: the inbound body is decoded exactly when the Content-Type is one
of application/json, multipart/form-data, application/x-www-form-urlencoded
(exact string match); any other Content-Type makes the invoke handler
answer 422 "Invalid Content-Type" with zero Invocations persisted, no
user write, and no LLM contact - hence before any validation. -/
theorem invoke_content_type_gate :
    (∀ (ct : String) (j : List (String × Val)) (f : List (String × String)),
      (req_to_data ct j f).isOk = true ↔
        (ct = "application/json" ∨ ct = "multipart/form-data"
          ∨ ct = "application/x-www-form-urlencoded")) ∧
    (∀ (e : Endpoints) (user : Users) (project : Projects) (ct : String)
      (j : List (String × Val)) (f : List (String × String))
      (llm : Except Unit (List (String × Val))) (lat : Rat),
      ¬ user.credits_used ≥ user.credits_avail →
      ¬ (ct = "application/json" ∨ ct = "multipart/form-data"
          ∨ ct = "application/x-www-form-urlencoded") →
      invoke (some e) user project ct j f llm lat =
        ⟨some 422, "Invalid Content-Type", [], Option.none, false⟩) := by
  constructor
  · intro ct j f
    unfold req_to_data
    by_cases h1 : ct = "application/json"
    · rw [if_pos h1]
      exact ⟨fun _ => Or.inl h1, fun _ => rfl⟩
    · rw [if_neg h1]
      by_cases h2 : ct = "multipart/form-data" ∨ ct = "application/x-www-form-urlencoded"
      · rw [if_pos h2]
        exact ⟨fun _ => Or.inr h2, fun _ => rfl⟩
      · rw [if_neg h2]
        exact ⟨fun hx => absurd hx (by decide),
          fun hy => hy.elim (fun h => absurd h h1) (fun h => absurd h h2)⟩
  · intro e user project ct j f llm lat hcred hct
    have hdata : req_to_data ct j f = Except.error () := by
      unfold req_to_data
      rw [if_neg (fun h => hct (Or.inl h)), if_neg (fun h => hct (Or.inr h))]
    unfold invoke
    rw [if_neg hcred, hdata]

/-- Witness for C8 at Content-Type "text/plain". -/
theorem invoke_content_type_gate_witness :
    invoke (some sampleEndpoint) sampleUser sampleProject "text/plain"
      [("input", Val.str "x")] [] (Except.error ()) 0 =
      ⟨some 422, "Invalid Content-Type", [], Option.none, false⟩ :=
  invoke_content_type_gate.2 sampleEndpoint sampleUser sampleProject "text/plain"
    [("input", Val.str "x")] [] (Except.error ()) 0 (by decide) (by decide)

/-- C5: a payload carrying a key not declared in the strict compiled
contract fails validation with extra_forbidden, and the invoke handler
answers 422 "Payload is invalid" with zero Invocations persisted, no user
write and no LLM contact. -/
theorem invoke_strict_extra_key (e : Endpoints) (user : Users) (project : Projects)
    (m : List CompiledField) (payload : List (String × Val)) (k : String) (v : Val)
    (f : List (String × String)) (llm : Except Unit (List (String × Val))) (lat : Rat)
    (hcred : ¬ user.credits_used ≥ user.credits_avail)
    (hm : payload_model project.request = some m)
    (hkv : (k, v) ∈ payload)
    (hk : declaredName m k = false) :
    (∃ k2, validate m payload = Except.error (ValErr.extraForbidden k2)) ∧
    invoke (some e) user project "application/json" payload f llm lat =
      ⟨some 422, "Payload is invalid", [], Option.none, false⟩ := by
  have hfind : ∃ kv, payload.find? (fun kv => !(declaredName m kv.1)) = some kv := by
    cases hf : payload.find? (fun kv => !(declaredName m kv.1)) with
    | some kv => exact ⟨kv, rfl⟩
    | none =>
      have hall := List.find?_eq_none.mp hf (k, v) hkv
      simp [hk] at hall
  obtain ⟨kv, hfindeq⟩ := hfind
  have hval : validate m payload = Except.error (ValErr.extraForbidden kv.1) := by
    unfold validate
    rw [hfindeq]
  refine ⟨⟨kv.1, hval⟩, ?_⟩
  have hdata : req_to_data "application/json" payload f = Except.ok payload := by
    unfold req_to_data
    rw [if_pos rfl]
  unfold invoke
  rw [if_neg hcred, hdata]
  simp only [hm, hval]

/-- Witness for C5: the spec scenario payload with the undeclared key
"extra" on the spelling project. -/
theorem invoke_strict_extra_key_witness :
    (∃ k2, validate [⟨"input", PyType.str, Val.none⟩]
      [("input", Val.str "x"), ("extra", Val.int 1)] =
      Except.error (ValErr.extraForbidden k2)) ∧
    invoke (some sampleEndpoint) sampleUser sampleProject "application/json"
      [("input", Val.str "x"), ("extra", Val.int 1)] [] (Except.error ()) 0 =
      ⟨some 422, "Payload is invalid", [], Option.none, false⟩ :=
  invoke_strict_extra_key sampleEndpoint sampleUser sampleProject
    [⟨"input", PyType.str, Val.none⟩] [("input", Val.str "x"), ("extra", Val.int 1)]
    "extra" (Val.int 1) [] (Except.error ()) 0
    (by decide) rfl (List.mem_cons_of_mem _ (List.mem_cons_self _ _)) rfl

/-- Mapping over an Except result preserves errors exactly. -/
theorem except_map_eq_error {α β ε : Type} (g : α → β) (x : Except ε α) (e : ε) :
    Except.map g x = Except.error e ↔ x = Except.error e := by
  cases x <;> simp [Except.map]

/-- `validateFields` can only fail with a type error: since every
compiled field carries a default, pydantic's "missing" error is
structurally unreachable. -/
theorem validateFields_not_missing (fields : List CompiledField)
    (payload : List (String × Val)) (k : String) :
    validateFields fields payload ≠ Except.error (ValErr.missing k) := by
  induction fields with
  | nil => simp [validateFields]
  | cons f rest ih =>
    intro hx
    unfold validateFields at hx
    split at hx
    · split at hx
      · exact ih ((except_map_eq_error _ _ _).mp hx)
      · simp at hx
    · exact ih ((except_map_eq_error _ _ _).mp hx)

/-- When `validateFields` succeeds, every declared field that is absent
from the payload is bound to its stored default in the result. -/
theorem validateFields_absent_default (fields : List CompiledField)
    (payload : List (String × Val)) (r : List (String × Val)) (f : CompiledField)
    (hr : validateFields fields payload = Except.ok r)
    (hf : f ∈ fields) (habs : lookupVal f.name payload = Option.none) :
    (f.name, f.default) ∈ r := by
  induction fields generalizing r with
  | nil => cases hf
  | cons g rest ih =>
    unfold validateFields at hr
    rcases List.mem_cons.mp hf with heq | hmem
    · subst heq
      rw [habs] at hr
      cases hrest : validateFields rest payload with
      | error e => rw [hrest] at hr; simp [Except.map] at hr
      | ok r2 =>
        rw [hrest] at hr
        simp only [Except.map] at hr
        injection hr with hr
        rw [← hr]
        exact List.mem_cons_self _ _
    · cases hl : lookupVal g.name payload with
      | some v =>
        simp only [hl] at hr
        cases hc : coerce g.type v with
        | some v2 =>
          simp only [hc] at hr
          cases hrest : validateFields rest payload with
          | error e => simp [hrest, Except.map] at hr
          | ok r2 =>
            simp only [hrest, Except.map] at hr
            injection hr with hr
            rw [← hr]
            exact List.mem_cons_of_mem _ (ih r2 hrest hmem)
        | none => simp [hc] at hr
      | none =>
        simp only [hl] at hr
        cases hrest : validateFields rest payload with
        | error e => simp [hrest, Except.map] at hr
        | ok r2 =>
          simp only [hrest, Except.map] at hr
          injection hr with hr
          rw [← hr]
          exact List.mem_cons_of_mem _ (ih r2 hrest hmem)

/-- C4 counterexample: the contract a form submission with the single
Text field "input" produces (the form supplies no default value; None is
stored). The empty payload omits the declared field, yet validation
succeeds and silently binds "input" to None, instead of failing with a
missing-field error as the claim states. -/
theorem validate_missing_field_cex :
    (Projects.from_form "Spelling" "fix spelling" ["input"] ["Text"] [] []
        sampleUser "p1" "e1").request = [("input", "Text", Val.none)] ∧
    payload_model [("input", "Text", Val.none)] =
      some [⟨"input", PyType.str, Val.none⟩] ∧
    validate [⟨"input", PyType.str, Val.none⟩] [] =
      Except.ok [("input", Val.none)] :=
  ⟨rfl, rfl, rfl⟩

/-- C4 (amended): every field compiled by `payload_model` carries a
default (the stored second tuple component - None for contracts built
from the form), so validation never fails with a missing-field error for
an omitted declared field; instead, whenever validation succeeds, the
omitted field is silently bound to its stored default. -/
theorem validate_absent_field (data : ContractData) (m : List CompiledField)
    (payload : List (String × Val))
    (hm : payload_model data = some m) :
    (∀ k, validate m payload ≠ Except.error (ValErr.missing k)) ∧
    (∀ r f, validate m payload = Except.ok r → f ∈ m →
      lookupVal f.name payload = Option.none → (f.name, f.default) ∈ r) := by
  constructor
  · intro k
    unfold validate
    cases hfind : payload.find? (fun kv => !(declaredName m kv.1)) with
    | some kv => simp
    | none => exact validateFields_not_missing m payload k
  · intro r f hr hf habs
    unfold validate at hr
    cases hfind : payload.find? (fun kv => !(declaredName m kv.1)) with
    | some kv => rw [hfind] at hr; cases hr
    | none =>
      rw [hfind] at hr
      exact validateFields_absent_default m payload r f hr hf habs

/-- Witness for C4 (amended) on the form-built one-field contract and the
empty payload. -/
theorem validate_absent_field_witness :
    (∀ k, validate [⟨"input", PyType.str, Val.none⟩] [] ≠
      Except.error (ValErr.missing k)) ∧
    ("input", Val.none) ∈ ([("input", Val.none)] : List (String × Val)) :=
  ⟨(validate_absent_field [("input", "Text", Val.none)] _ [] rfl).1,
   (validate_absent_field [("input", "Text", Val.none)] _ [] rfl).2
     [("input", Val.none)] ⟨"input", PyType.str, Val.none⟩ rfl
     (List.mem_cons_self _ _) rfl⟩

/-- A user whose stored invocation count (1) is stale relative to an
empty invocation list, and whose aggregates are away from their class
defaults. -/
def staleUser : Users :=
  { id := "u1", login := "alice", provider := "github", roles := [],
    invocations := 1, latency := 5, success := 0 }

/-- C3 counterexample: refreshing `staleUser` against the empty list runs
the recomputation (a store write happens) and zeroes count and credits,
but latency stays 5.0 and success stays 0.0: the claimed empty-list guard
values success_rate = 1.0 and latency_avg = 0 do not hold. -/
theorem refresh_empty_guard_cex :
    Users.refresh staleUser [] =
      ({ id := "u1", login := "alice", provider := "github", roles := [],
         invocations := 0, credits_used := 0, latency := 5, success := 0 }, true) ∧
    (Users.refresh staleUser []).1.latency ≠ 0 ∧
    (Users.refresh staleUser []).1.success ≠ 1 := by
  refine ⟨by decide, by decide, by decide⟩

/-- C3 (amended): refresh is a no-op (entity unchanged, no store write)
when the invocation list length equals the stored count, and otherwise
recomputes count and credits and writes the entity; mean latency and the
success fraction are recomputed only when the new count is positive, so
on an empty list they RETAIN their previous values instead of being reset
to 0 and 1.0. Projects.refresh behaves the same on its project-filtered
sublist. -/
theorem refresh_short_circuit_and_recompute :
    (∀ (u : Users) (invs : List Invocations),
      ((invs.length : Int) = u.invocations → Users.refresh u invs = (u, false)) ∧
      ((invs.length : Int) ≠ u.invocations →
        (Users.refresh u invs).2 = true ∧
        (Users.refresh u invs).1.invocations = (invs.length : Int) ∧
        (Users.refresh u invs).1.credits_used = (invs.map (fun x => x.credits)).sum ∧
        (invs ≠ [] →
          (Users.refresh u invs).1.latency =
            (invs.map (fun x => x.latency)).sum / (invs.length : Rat) ∧
          (Users.refresh u invs).1.success =
            ((invs.filter (fun x => x.success)).length : Rat) / (invs.length : Rat)) ∧
        (invs = [] →
          (Users.refresh u invs).1.latency = u.latency ∧
          (Users.refresh u invs).1.success = u.success))) ∧
    (∀ (p : Projects) (l : List Invocations),
      (((l.filter (fun inv => inv.project = p.id)).length : Int) = p.invocations →
        Projects.refresh p l = (p, false)) ∧
      (((l.filter (fun inv => inv.project = p.id)).length : Int) ≠ p.invocations →
        (Projects.refresh p l).2 = true ∧
        (Projects.refresh p l).1.invocations =
          ((l.filter (fun inv => inv.project = p.id)).length : Int) ∧
        (Projects.refresh p l).1.credits =
          ((l.filter (fun inv => inv.project = p.id)).map (fun x => x.credits)).sum ∧
        (l.filter (fun inv => inv.project = p.id) ≠ [] →
          (Projects.refresh p l).1.latency =
            ((l.filter (fun inv => inv.project = p.id)).map (fun x => x.latency)).sum /
              ((l.filter (fun inv => inv.project = p.id)).length : Rat) ∧
          (Projects.refresh p l).1.success =
            (((l.filter (fun inv => inv.project = p.id)).filter
                (fun x => x.success)).length : Rat) /
              ((l.filter (fun inv => inv.project = p.id)).length : Rat)) ∧
        (l.filter (fun inv => inv.project = p.id) = [] →
          (Projects.refresh p l).1.latency = p.latency ∧
          (Projects.refresh p l).1.success = p.success))) := by
  constructor
  · intro u invs
    constructor
    · intro h
      unfold Users.refresh
      rw [if_pos h]
    · intro h
      simp only [Users.refresh, if_neg h]
      split
      case isTrue hpos =>
        refine ⟨by trivial, by trivial, by trivial, fun _ => ⟨by trivial, by trivial⟩,
          fun he => ?_⟩
        rw [he] at hpos
        exact absurd hpos (by decide)
      case isFalse hneg =>
        refine ⟨by trivial, by trivial, by trivial, fun hne => ?_,
          fun _ => ⟨by trivial, by trivial⟩⟩
        have hlen : 0 < invs.length := List.length_pos.mpr hne
        exact absurd (by exact_mod_cast hlen) hneg
  · intro p l
    constructor
    · intro h
      simp only [Projects.refresh]
      rw [if_pos h]
    · intro h
      simp only [Projects.refresh, if_neg h]
      split
      case isTrue hpos =>
        refine ⟨by trivial, by trivial, by trivial, fun _ => ⟨by trivial, by trivial⟩,
          fun he => ?_⟩
        rw [he] at hpos
        exact absurd hpos (by decide)
      case isFalse hneg =>
        refine ⟨by trivial, by trivial, by trivial, fun hne => ?_,
          fun _ => ⟨by trivial, by trivial⟩⟩
        have hlen : 0 < (l.filter (fun inv => inv.project = p.id)).length :=
          List.length_pos.mpr hne
        exact absurd (by exact_mod_cast hlen) hneg

/-- Witness for C3 (amended): the short-circuit at matching counts fires
for both entity types. -/
theorem refresh_short_circuit_witness :
    Users.refresh sampleUser [] = (sampleUser, false) ∧
    Projects.refresh sampleProject [] = (sampleProject, false) :=
  ⟨(refresh_short_circuit_and_recompute.1 sampleUser []).1 rfl,
   (refresh_short_circuit_and_recompute.2 sampleProject []).1 rfl⟩

/-- An invocation belonging to the sample project. -/
def ownInv : Invocations :=
  { project := "p1", user := "u1", credits := 3, latency := 2, success := true }

/-- An invocation belonging to some other project. -/
def foreignInv : Invocations :=
  { project := "other", user := "u1", credits := 2, latency := 1, success := true }

/-- C9: Projects.refresh depends only on the sublist of invocations whose
project field equals the project's id (two lists with equal filtered
sublists give identical results), and the staleness short-circuit
compares the stored count against the filtered sublist's length, not the
full list's. -/
theorem projects_refresh_filtered (p : Projects) (l1 l2 : List Invocations)
    (h : l1.filter (fun inv => inv.project = p.id) =
      l2.filter (fun inv => inv.project = p.id)) :
    Projects.refresh p l1 = Projects.refresh p l2 ∧
    (∀ l : List Invocations,
      ((l.filter (fun inv => inv.project = p.id)).length : Int) = p.invocations →
      Projects.refresh p l = (p, false)) := by
  constructor
  · unfold Projects.refresh
    rw [h]
  · intro l hl
    simp only [Projects.refresh]
    rw [if_pos hl]

/-- Witness for C9: adding a foreign invocation does not change the
result, and a list holding only foreign invocations (filtered length 0 =
stored count) short-circuits even though the full list is non-empty. -/
theorem projects_refresh_filtered_witness :
    Projects.refresh sampleProject [ownInv, foreignInv] =
      Projects.refresh sampleProject [ownInv] ∧
    Projects.refresh sampleProject [foreignInv] = (sampleProject, false) :=
  ⟨(projects_refresh_filtered sampleProject [ownInv, foreignInv] [ownInv] rfl).1,
   (projects_refresh_filtered sampleProject [ownInv, foreignInv] [ownInv] rfl).2
     [foreignInv] rfl⟩

/-- C7 (amended): every request built for the LLM carries exactly one
synthetic tool, named structured_response, whose parameter object holds
the response model's JSON schema and lists every response field as
required - but tool use is NOT marked mandatory: `tool_choice` is left at
its declared default "auto", which still permits a plain message. -/
theorem llm_request_single_tool (model instructions : String)
    (request : List (String × Val)) (responseName : String)
    (ResponseFields : List CompiledField) :
    (llm_openai_request model instructions request responseName
      ResponseFields).tools = some [openai_response_tool responseName ResponseFields] ∧
    (openai_response_tool responseName ResponseFields).function.name =
      "structured_response" ∧
    (openai_response_tool responseName ResponseFields).function.parameters.properties =
      model_json_schema responseName ResponseFields ∧
    (openai_response_tool responseName ResponseFields).function.parameters.required =
      ResponseFields.map (fun f => f.name) ∧
    (llm_openai_request model instructions request responseName
      ResponseFields).tool_choice = some (ToolChoiceV.str "auto") ∧
    ToolChoiceV.mandatory (ToolChoiceV.str "auto") = false :=
  ⟨rfl, rfl, rfl, rfl, rfl, rfl⟩

/-- C7 counterexample: at a concrete invocation the built request carries
the single structured_response tool, but its tool_choice is "auto":
tool use is not mandatory, contradicting the claim that the model must
always emit a tool call and never a plain message. -/
theorem llm_request_tool_choice_cex :
    (llm_openai_request "gpt-4" "fix spelling" [("input", Val.str "Helo wrld")]
      "PayloadResponse" [⟨"output", PyType.str, Val.none⟩]).tool_choice =
      some (ToolChoiceV.str "auto") ∧
    ToolChoiceV.mandatory (ToolChoiceV.str "auto") = false :=
  ⟨rfl, rfl⟩

/-- Every run of the invoke handler either persists nothing (no
Invocation, no user write), or is the fully successful round trip:
status 200, exactly one Invocation with success = true, and the user
debited by exactly that Invocation's credits. -/
theorem invoke_cases (endpoint : Option Endpoints) (user : Users)
    (project : Projects) (ct : String) (j : List (String × Val))
    (f : List (String × String)) (llm : Except Unit (List (String × Val)))
    (lat : Rat) :
    ((invoke endpoint user project ct j f llm lat).savedInvocations = [] ∧
      (invoke endpoint user project ct j f llm lat).savedUser = Option.none) ∨
    ((invoke endpoint user project ct j f llm lat).status = some 200 ∧
      ∃ inv, (invoke endpoint user project ct j f llm lat).savedInvocations = [inv] ∧
        inv.success = true ∧
        (invoke endpoint user project ct j f llm lat).savedUser =
          some { user with credits_used := user.credits_used + inv.credits }) := by
  unfold invoke
  cases endpoint with
  | none => exact Or.inl ⟨rfl, rfl⟩
  | some e =>
    repeat' split
    all_goals first
      | exact Or.inl ⟨rfl, rfl⟩
      | exact Or.inr ⟨rfl, ⟨_, rfl, rfl, rfl⟩⟩

/-- C1 (amended): an error after the LLM call has been issued (transport,
upstream, or output-contract violation) makes the handler raise: NO
Invocation record is persisted (rather than one with success = false)
and the user's balance is untouched; conversely anything persisted - an
Invocation or a user write - happens only on the fully successful round
trip, which persists exactly one successful Invocation and debits
exactly its credits. -/
theorem invoke_persist_only_on_success (endpoint : Option Endpoints)
    (user : Users) (project : Projects) (ct : String) (j : List (String × Val))
    (f : List (String × String)) (llm : Except Unit (List (String × Val)))
    (lat : Rat) :
    (llm.isOk = false →
      (invoke endpoint user project ct j f llm lat).savedInvocations = [] ∧
      (invoke endpoint user project ct j f llm lat).savedUser = Option.none) ∧
    ((invoke endpoint user project ct j f llm lat).savedInvocations ≠ [] ∨
        (invoke endpoint user project ct j f llm lat).savedUser ≠ Option.none →
      (invoke endpoint user project ct j f llm lat).status = some 200 ∧
      ∃ inv, (invoke endpoint user project ct j f llm lat).savedInvocations = [inv] ∧
        inv.success = true ∧
        (invoke endpoint user project ct j f llm lat).savedUser =
          some { user with credits_used := user.credits_used + inv.credits }) := by
  constructor
  · intro hllm
    cases hok : llm with
    | error u =>
      unfold invoke
      cases endpoint with
      | none => exact ⟨rfl, rfl⟩
      | some e =>
        repeat' split
        all_goals first
          | exact ⟨rfl, rfl⟩
          | simp_all
    | ok raw => rw [hok] at hllm; simp [Except.isOk, Except.toBool] at hllm
  · intro hpersist
    rcases invoke_cases endpoint user project ct j f llm lat with ⟨h1, h2⟩ | hsucc
    · rcases hpersist with hp | hp
      · exact absurd h1 hp
      · exact absurd h2 hp
    · exact hsucc

/-- Witness for C1 (amended): a failed LLM call persists nothing, and
the fully successful spelling-fix round trip persists one successful
Invocation and debits the user. -/
theorem invoke_persist_only_on_success_witness :
    ((invoke (some sampleEndpoint) sampleUser sampleProject "application/json"
      [("input", Val.str "Helo wrld")] [] (Except.error ()) 0).savedInvocations = [] ∧
     (invoke (some sampleEndpoint) sampleUser sampleProject "application/json"
      [("input", Val.str "Helo wrld")] [] (Except.error ()) 0).savedUser =
      Option.none) ∧
    (invoke (some sampleEndpoint) sampleUser sampleProject "application/json"
      [("input", Val.str "Helo wrld")] []
      (Except.ok [("output", Val.str "Hello world"), ("was_corrected", Val.bool true)])
      0).status = some 200 ∧
    ∃ inv, (invoke (some sampleEndpoint) sampleUser sampleProject "application/json"
      [("input", Val.str "Helo wrld")] []
      (Except.ok [("output", Val.str "Hello world"), ("was_corrected", Val.bool true)])
      0).savedInvocations = [inv] ∧
      inv.success = true ∧
      (invoke (some sampleEndpoint) sampleUser sampleProject "application/json"
        [("input", Val.str "Helo wrld")] []
        (Except.ok [("output", Val.str "Hello world"), ("was_corrected", Val.bool true)])
        0).savedUser =
        some { sampleUser with credits_used := sampleUser.credits_used + inv.credits } :=
  ⟨(invoke_persist_only_on_success (some sampleEndpoint) sampleUser sampleProject
      "application/json" [("input", Val.str "Helo wrld")] [] (Except.error ()) 0).1 rfl,
   (invoke_persist_only_on_success (some sampleEndpoint) sampleUser sampleProject
      "application/json" [("input", Val.str "Helo wrld")] []
      (Except.ok [("output", Val.str "Hello world"), ("was_corrected", Val.bool true)])
      0).2 (Or.inl (List.cons_ne_nil _ _))⟩

/-- C1 counterexample: a well-formed call on the spelling project whose
LLM call raises: the failure is after the LLM call was issued
(llmCalled = true), yet NO Invocation record is persisted - the claim
demands exactly one record with success = false - and no user write
happens. -/
theorem invoke_llm_error_cex :
    invoke (some sampleEndpoint) sampleUser sampleProject "application/json"
      [("input", Val.str "Helo wrld")] [] (Except.error ()) 0 =
      ⟨Option.none, "", [], Option.none, true⟩ ∧
    (invoke (some sampleEndpoint) sampleUser sampleProject "application/json"
      [("input", Val.str "Helo wrld")] [] (Except.error ()) 0).savedInvocations.length
      ≠ 1 :=
  ⟨rfl, by decide⟩

/-- C2 (amended): a successful invocation is metered as
ceil((CHARACTER count of the response JSON + CHARACTER count of the
request JSON + CHARACTER count of the instructions) / costRate(model)) -
Python `len` on `str` counts characters, not bytes. The credit count is
a function of exactly (request record, response record, instructions,
per-model rate), so identical inputs yield identical credits; the
claim's BYTE lengths disagree with the implementation on non-ASCII text
(see the counterexample). -/
theorem invoke_meter_chars (e : Endpoints) (user : Users) (project : Projects)
    (j : List (String × Val)) (f : List (String × String))
    (llm : Except Unit (List (String × Val))) (lat : Rat)
    (m respModel : List CompiledField) (request response raw : List (String × Val))
    (rate : Nat) (puser : String)
    (hcred : ¬ user.credits_used ≥ user.credits_avail)
    (hm : payload_model project.request = some m)
    (hreq : validate m j = Except.ok request)
    (hrm : payload_model project.response = some respModel)
    (hllm : llm = Except.ok raw)
    (hresp : validate respModel raw = Except.ok response)
    (hrate : model2credits project.model = some rate)
    (hpu : project.user = some puser) :
    (invoke (some e) user project "application/json" j f llm lat).status = some 200 ∧
    (invoke (some e) user project "application/json" j f llm lat).savedInvocations.map
        (fun i => i.credits) =
      [((ceilDiv ((recordDumpJson response).length + (recordDumpJson request).length
        + project.instructions.length) rate : Nat) : Int)] ∧
    meter request response project.instructions rate =
      ceilDiv ((recordDumpJson response).length + (recordDumpJson request).length
        + project.instructions.length) rate := by
  subst hllm
  have hdata : req_to_data "application/json" j f = Except.ok j := by
    unfold req_to_data
    rw [if_pos rfl]
  unfold invoke
  rw [if_neg hcred, hdata]
  simp only [hm, hreq, hrm, hresp, hrate, hpu]
  refine ⟨?_, ?_, ?_⟩ <;> trivial

/-- Witness for C2 (amended): the spelling-fix scenario on
gpt-35-turbo. -/
theorem invoke_meter_chars_witness :
    (invoke (some sampleEndpoint) sampleUser sampleProject "application/json"
      [("input", Val.str "Helo wrld")] []
      (Except.ok [("output", Val.str "Hello world"), ("was_corrected", Val.bool true)])
      0).status = some 200 ∧
    (invoke (some sampleEndpoint) sampleUser sampleProject "application/json"
      [("input", Val.str "Helo wrld")] []
      (Except.ok [("output", Val.str "Hello world"), ("was_corrected", Val.bool true)])
      0).savedInvocations.map (fun i => i.credits) =
      [((ceilDiv ((recordDumpJson [("output", Val.str "Hello world"),
            ("was_corrected", Val.bool true)]).length
          + (recordDumpJson [("input", Val.str "Helo wrld")]).length
          + sampleProject.instructions.length) 500 : Nat) : Int)] ∧
    meter [("input", Val.str "Helo wrld")]
        [("output", Val.str "Hello world"), ("was_corrected", Val.bool true)]
        sampleProject.instructions 500 =
      ceilDiv ((recordDumpJson [("output", Val.str "Hello world"),
            ("was_corrected", Val.bool true)]).length
        + (recordDumpJson [("input", Val.str "Helo wrld")]).length
        + sampleProject.instructions.length) 500 :=
  invoke_meter_chars sampleEndpoint sampleUser sampleProject
    [("input", Val.str "Helo wrld")] []
    (Except.ok [("output", Val.str "Hello world"), ("was_corrected", Val.bool true)]) 0
    [⟨"input", PyType.str, Val.none⟩]
    [⟨"output", PyType.str, Val.none⟩, ⟨"was_corrected", PyType.bool, Val.none⟩]
    [("input", Val.str "Helo wrld")]
    [("output", Val.str "Hello world"), ("was_corrected", Val.bool true)]
    [("output", Val.str "Hello world"), ("was_corrected", Val.bool true)]
    500 "u1" (by decide) rfl rfl rfl rfl rfl rfl rfl

/-- A project with empty request and response contracts whose
instructions hold 45 ASCII letters and one non-ASCII letter: 46
characters, 47 UTF-8 bytes. -/
def accentProject : Projects :=
  { id := "p2", user := some "u1", name := "Accent",
    instructions := "aaaaaaaaaaaaaaaaaaaaaaaaaaaaaaaaaaaaaaaaaaaaaé",
    request := ([] : ContractData), response := ([] : ContractData),
    endpoint := "e2", model := "gpt-4" }

/-- C2 counterexample: on `accentProject` (rate 50) the code meters
2 + 2 + 46 = 50 CHARACTERS and persists 1 credit, while the claimed byte
formula gives 2 + 2 + 47 = 51 bytes, hence 2 credits: the persisted
credit count is not the claimed byte-based cost. -/
theorem invoke_meter_bytes_cex :
    (invoke (some sampleEndpoint) sampleUser accentProject "application/json"
      [] [] (Except.ok []) 0).savedInvocations.map (fun i => i.credits) = [1] ∧
    meterBytesSpec [] [] accentProject.instructions 50 = 2 ∧
    (1 : Int) ≠ 2 :=
  ⟨rfl, rfl, by decide⟩
